import Mathlib

/-!
# Verification of the hardened-os update and logging scripts

A shallow embedding, in Lean, of the pure computational core of four Python
scripts of the `hardened-os` repository:

* `scripts/transparency-log.py`  — RFC-6962-style Merkle transparency log;
* `scripts/tuf-client-updater.py` — TUF metadata / target verification client;
* `scripts/staged-rollout-manager.py` — staged rollout cohorts and health-based
  rollback;
* `hardened-os/logging/log-server-config.py` — tamper-evident log ingestion
  server.

Conventions of the embedding:

* Python `bytes` and `str` values are modelled as `List Nat` of byte /
  code-point values; where only equality of a string matters (status words,
  client ids, file names) Lean `String` is used instead.
* `hashlib.sha256` is implemented bit-faithfully below (FIPS 180-4), byte in /
  byte out, with 32-bit words as `Nat` reduced `% 2^32`.
* Asymmetric signature primitives (`ed25519`, RSA-PSS) are abstracted as
  explicit boolean oracle parameters: the scripts only branch on whether
  `verify` succeeded, never on the signature bits themselves.
* Python floats (timestamps, hours, percentages) are modelled as exact `ℚ`;
  the scripts only compare and do elementary arithmetic on them.
* Fallible code (raised exceptions, HTTP error responses) returns
  `Except` / `Option` / status codes; file-system effects are explicit state
  records threaded through the functions.
-/

namespace HardenedOS

/-! ## SHA-256 (`hashlib.sha256`), FIPS 180-4, byte-level -/

/-- Reduce to a 32-bit word. -/
def mod32 (x : Nat) : Nat := x % 4294967296

/-- Rotate the 32-bit word `x` right by `n` positions. -/
def rotr (n x : Nat) : Nat := (x >>> n) ||| mod32 (x <<< (32 - n))

/-- The eight working variables of the SHA-256 compression function. -/
structure ShaState where
  a : Nat
  b : Nat
  c : Nat
  d : Nat
  e : Nat
  f : Nat
  g : Nat
  h : Nat
deriving DecidableEq

/-- SHA-256 initial hash value H(0) (FIPS 180-4 section 5.3.3, in decimal). -/
def shaH0 : ShaState :=
  ⟨1779033703, 3144134277, 1013904242, 2773480762,
   1359893119, 2600822924, 528734635, 1541459225⟩

/-- SHA-256 round constants K (FIPS 180-4 section 4.2.2, written in decimal). -/
def shaK : List Nat :=
  [1116352408, 1899447441, 3049323471, 3921009573, 961987163, 1508970993,
   2453635748, 2870763221, 3624381080, 310598401, 607225278, 1426881987,
   1925078388, 2162078206, 2614888103, 3248222580, 3835390401, 4022224774,
   264347078, 604807628, 770255983, 1249150122, 1555081692, 1996064986,
   2554220882, 2821834349, 2952996808, 3210313671, 3336571891, 3584528711,
   113926993, 338241895, 666307205, 773529912, 1294757372, 1396182291,
   1695183700, 1986661051, 2177026350, 2456956037, 2730485921, 2820302411,
   3259730800, 3345764771, 3516065817, 3600352804, 4094571909, 275423344,
   430227734, 506948616, 659060556, 883997877, 958139571, 1322822218,
   1537002063, 1747873779, 1955562222, 2024104815, 2227730452, 2361852424,
   2428436474, 2756734187, 3204031479, 3329325298]

def bigSigma0 (x : Nat) : Nat := rotr 2 x ^^^ rotr 13 x ^^^ rotr 22 x

def bigSigma1 (x : Nat) : Nat := rotr 6 x ^^^ rotr 11 x ^^^ rotr 25 x

def smallSigma0 (x : Nat) : Nat := rotr 7 x ^^^ rotr 18 x ^^^ (x >>> 3)

def smallSigma1 (x : Nat) : Nat := rotr 17 x ^^^ rotr 19 x ^^^ (x >>> 10)

def shaCh (x y z : Nat) : Nat := (x &&& y) ^^^ ((x ^^^ 0xffffffff) &&& z)

def shaMaj (x y z : Nat) : Nat := (x &&& y) ^^^ (x &&& z) ^^^ (y &&& z)

/-- One SHA-256 round: consume one `(K[i], W[i])` pair. -/
def shaRound (st : ShaState) (kw : Nat × Nat) : ShaState :=
  let t1 := mod32 (st.h + bigSigma1 st.e + shaCh st.e st.f st.g + kw.1 + kw.2)
  let t2 := mod32 (bigSigma0 st.a + shaMaj st.a st.b st.c)
  ⟨mod32 (t1 + t2), st.a, st.b, st.c, mod32 (st.d + t1), st.e, st.f, st.g⟩

/-- Group a byte list into big-endian 32-bit words. -/
def toWords : List Nat → List Nat
  | b0 :: b1 :: b2 :: b3 :: rest =>
      (((b0 * 256 + b1) * 256 + b2) * 256 + b3) :: toWords rest
  | _ => []

/-- Extend the 16-word message schedule by `n` further words. -/
def extendSchedule : Nat → List Nat → List Nat
  | 0, ws => ws
  | n + 1, ws =>
      let i := ws.length
      let next := mod32 (ws.getD (i - 16) 0 + smallSigma0 (ws.getD (i - 15) 0)
        + ws.getD (i - 7) 0 + smallSigma1 (ws.getD (i - 2) 0))
      extendSchedule n (ws ++ [next])

/-- SHA-256 compression of one 64-byte block into the running state. -/
def shaCompress (st : ShaState) (block : List Nat) : ShaState :=
  let ws := extendSchedule 48 (toWords block)
  let t := (shaK.zip ws).foldl shaRound st
  ⟨mod32 (st.a + t.a), mod32 (st.b + t.b), mod32 (st.c + t.c), mod32 (st.d + t.d),
   mod32 (st.e + t.e), mod32 (st.f + t.f), mod32 (st.g + t.g), mod32 (st.h + t.h)⟩

/-- Merkle–Damgard padding: `0x80`, zeros to 56 mod 64, 8-byte big-endian bit length. -/
def padMessage (msg : List Nat) : List Nat :=
  let bitLen := 8 * msg.length
  let zeros := (119 - msg.length % 64) % 64
  msg ++ 0x80 :: List.replicate zeros 0 ++
    [(bitLen >>> 56) % 256, (bitLen >>> 48) % 256, (bitLen >>> 40) % 256, (bitLen >>> 32) % 256,
     (bitLen >>> 24) % 256, (bitLen >>> 16) % 256, (bitLen >>> 8) % 256, bitLen % 256]

/-- Split into 64-byte blocks (fuelled; `fuel ≥ length` suffices). -/
def splitBlocks : Nat → List Nat → List (List Nat)
  | 0, _ => []
  | _, [] => []
  | n + 1, l => l.take 64 :: splitBlocks n (l.drop 64)

/-- Serialize one 32-bit word to four big-endian bytes. -/
def wordBytes (w : Nat) : List Nat :=
  [(w >>> 24) % 256, (w >>> 16) % 256, (w >>> 8) % 256, w % 256]

/-- Embeds `hashlib.sha256(msg).digest()`: 32 bytes. -/
def sha256 (msg : List Nat) : List Nat :=
  let padded := padMessage msg
  let st := (splitBlocks padded.length padded).foldl shaCompress shaH0
  wordBytes st.a ++ wordBytes st.b ++ wordBytes st.c ++ wordBytes st.d ++
  wordBytes st.e ++ wordBytes st.f ++ wordBytes st.g ++ wordBytes st.h

/-- Lower-case hex digit, as an ASCII code. -/
def hexDigitCode (n : Nat) : Nat := if n < 10 then 48 + n else 87 + n

/-- Embeds `.hexdigest()`: the byte list rendered as lower-case hex character codes. -/
def hexdigest : List Nat → List Nat
  | [] => []
  | b :: rest => hexDigitCode (b / 16) :: hexDigitCode (b % 16) :: hexdigest rest

/-- Sanity: FIPS 180-4 test vector, SHA-256 of the empty message. -/
theorem sha256_empty_vector :
    sha256 [] =
      [0xe3, 0xb0, 0xc4, 0x42, 0x98, 0xfc, 0x1c, 0x14, 0x9a, 0xfb, 0xf4, 0xc8,
       0x99, 0x6f, 0xb9, 0x24, 0x27, 0xae, 0x41, 0xe4, 0x64, 0x9b, 0x93, 0x4c,
       0xa4, 0x95, 0x99, 0x1b, 0x78, 0x52, 0xb8, 0x55] := by decide

/-- Sanity: FIPS 180-4 test vector, SHA-256 of `"abc"`. -/
theorem sha256_abc_vector :
    sha256 [97, 98, 99] =
      [0xba, 0x78, 0x16, 0xbf, 0x8f, 0x01, 0xcf, 0xea, 0x41, 0x41, 0x40, 0xde,
       0x5d, 0xae, 0x22, 0x23, 0xb0, 0x03, 0x61, 0xa3, 0x96, 0x17, 0x7a, 0x9c,
       0xb4, 0x10, 0xff, 0x61, 0xf2, 0x00, 0x15, 0xad] := by decide

/-! ## `scripts/transparency-log.py` — Merkle transparency log

Log entries enter the tree through their canonical JSON serialization
(`json.dumps(entry, separators=(',', ':'), sort_keys=True)`).  That
serialization is a fixed injective function of the entry dictionary, so the
embedding models an entry by its canonical JSON byte string directly. -/

/-- Embeds `calculate_leaf_hash`: RFC 6962 leaf hash, `sha256(0x00 ‖ canonical_json)`. -/
def calculate_leaf_hash (canonicalJson : List Nat) : List Nat :=
  sha256 (0x00 :: canonicalJson)

/-- Embeds `calculate_internal_hash`: RFC 6962 internal hash, `sha256(0x01 ‖ left ‖ right)`. -/
def calculate_internal_hash (leftHash rightHash : List Nat) : List Nat :=
  sha256 (0x01 :: (leftHash ++ rightHash))

/-- One pass of the `for i in range(0, len(current_level), 2)` pairing loop of
`build_merkle_tree`: hash adjacent pairs, duplicating a trailing odd node. -/
def pairUpLevel : List (List Nat) → List (List Nat)
  | [] => []
  | [l] => [calculate_internal_hash l l]
  | l :: r :: rest => calculate_internal_hash l r :: pairUpLevel rest

/-- The `while len(current_level) > 1` loop of `build_merkle_tree`: the levels
strictly above the current one, bottom-up.  Fuelled; each level at least
halves, so `fuel = length of the starting level` is ample. -/
def buildLevelsLoop : Nat → List (List Nat) → List (List (List Nat))
  | 0, _ => []
  | fuel + 1, current =>
      if current.length > 1 then
        let next := pairUpLevel current
        next :: buildLevelsLoop fuel next
      else []

/-- Embeds `build_merkle_tree(leaf_hashes)`: returns `(root_hash, tree_levels)`.
The Python for a single leaf returns `leaf_hashes[0], [leaf_hashes[0]]`; for
every in-range index that behaves exactly like the level list `[[h]]` used
here (the proof loop runs over `tree_levels[:-1] = []` either way). -/
def build_merkle_tree (leafHashes : List (List Nat)) :
    Option (List Nat) × List (List (List Nat)) :=
  match leafHashes with
  | [] => (none, [])
  | [h] => (some h, [[h]])
  | _ =>
      let levels := leafHashes :: buildLevelsLoop leafHashes.length leafHashes
      ((levels.getLast?).bind List.head?, levels)

/-- One step of an inclusion proof: a sibling hash and which side the sibling
is on (the Python stores the hash hex-encoded; hex is a faithful injective
rendering, so the bytes are kept). -/
structure ProofStep where
  hash : List Nat
  sibling_on_the_right : Bool
deriving DecidableEq

/-- The `for level in tree_levels[:-1]` loop of `create_inclusion_proof`:
collect the sibling at each level, skipping a sibling index that falls outside
the level (the trailing duplicated node case). -/
def inclusionProofLoop : List (List (List Nat)) → Nat → List ProofStep
  | [], _ => []
  | level :: rest, currentIndex =>
      let siblingIndex :=
        if currentIndex % 2 == 0 then currentIndex + 1 else currentIndex - 1
      let step :=
        match level.get? siblingIndex with
        | some siblingHash => [⟨siblingHash, currentIndex % 2 == 0⟩]
        | none => []
      step ++ inclusionProofLoop rest (currentIndex / 2)

/-- Embeds `create_inclusion_proof(entry_index, tree_levels)`; `none` models the
`ValueError` raised for an out-of-range index. -/
def create_inclusion_proof (entryIndex : Nat)
    (treeLevels : List (List (List Nat))) : Option (List ProofStep) :=
  match treeLevels.head? with
  | none => none
  | some leafLevel =>
      if entryIndex ≥ leafLevel.length then none
      else some (inclusionProofLoop treeLevels.dropLast entryIndex)

/-- Embeds `verify_inclusion_proof(entry_data, entry_index, proof, root_hash)`.
The `entry_index` parameter is accepted but unused, exactly as in the source. -/
def verify_inclusion_proof (entryCanonicalJson : List Nat) (_entryIndex : Nat)
    (proof : List ProofStep) (rootHash : List Nat) : Bool :=
  let leafHash := calculate_leaf_hash entryCanonicalJson
  let currentHash := proof.foldl
    (fun currentHash step =>
      if step.sibling_on_the_right
      then calculate_internal_hash currentHash step.hash
      else calculate_internal_hash step.hash currentHash)
    leafHash
  currentHash == rootHash

/-! ## `scripts/staged-rollout-manager.py` — cohort bucketing -/

/-- Embeds `int(s, 16)` on a list of lower-case hex character codes. -/
def parseHexCodes (codes : List Nat) : Nat :=
  codes.foldl (fun acc c => acc * 16 + (if c < 58 then c - 48 else c - 87)) 0

/-- Embeds `calculate_rollout_group(update_id, system_id)`:
`int(sha256(f"{update_id}:{system_id}").hexdigest()[:8], 16) % 100`. -/
def calculate_rollout_group (updateId systemId : List Nat) : Nat :=
  let combined := updateId ++ 58 :: systemId
  let hashHex := hexdigest (sha256 combined)
  parseHexCodes (hashHex.take 8) % 100

/-- Big-endian unsigned integer of a byte list (most significant byte first). -/
def bytesBE (bs : List Nat) : Nat := bs.foldl (fun acc b => acc * 256 + b) 0

/-- Modelled from the spec: the cohort bucket as the spec words it — the first
4 bytes of `sha256(update_id ‖ ":" ‖ system_id)` read as a big-endian 32-bit
unsigned integer, reduced modulo 100. -/
def spec_cohort_bucket (updateId systemId : List Nat) : Nat :=
  bytesBE ((sha256 (updateId ++ 58 :: systemId)).take 4) % 100

/-- A hex digit code produced by `hexDigitCode` parses back to its value. -/
theorem hexVal_hexDigitCode (n : Nat) (h : n < 16) :
    (if hexDigitCode n < 58 then hexDigitCode n - 48 else hexDigitCode n - 87) = n := by
  unfold hexDigitCode
  split_ifs <;> omega

/-- Parsing the first 8 hex characters of a hexdigest recovers the big-endian
value of the first 4 bytes. -/
theorem parse_take8_hexdigest (b0 b1 b2 b3 : Nat) (rest : List Nat)
    (h0 : b0 < 256) (h1 : b1 < 256) (h2 : b2 < 256) (h3 : b3 < 256) :
    parseHexCodes ((hexdigest (b0 :: b1 :: b2 :: b3 :: rest)).take 8) =
      bytesBE [b0, b1, b2, b3] := by
  simp only [hexdigest, List.take_succ_cons, List.take_zero, parseHexCodes,
    bytesBE, List.foldl_cons, List.foldl_nil]
  rw [hexVal_hexDigitCode (b0 / 16) (by omega), hexVal_hexDigitCode (b0 % 16) (by omega),
    hexVal_hexDigitCode (b1 / 16) (by omega), hexVal_hexDigitCode (b1 % 16) (by omega),
    hexVal_hexDigitCode (b2 / 16) (by omega), hexVal_hexDigitCode (b2 % 16) (by omega),
    hexVal_hexDigitCode (b3 / 16) (by omega), hexVal_hexDigitCode (b3 % 16) (by omega)]
  omega

/-- Every SHA-256 digest starts with four bytes, each below 256. -/
theorem sha256_shape (m : List Nat) :
    ∃ b0 b1 b2 b3 rest, sha256 m = b0 :: b1 :: b2 :: b3 :: rest ∧
      b0 < 256 ∧ b1 < 256 ∧ b2 < 256 ∧ b3 < 256 := by
  refine ⟨_, _, _, _, _, rfl, ?_, ?_, ?_, ?_⟩
  all_goals exact Nat.mod_lt _ (by omega)

/-- Claim C7: for every `update_id` and `system_id`, the cohort bucket computed
by `calculate_rollout_group` equals the first 4 bytes of
`sha256(update_id ‖ ":" ‖ system_id)` read as a big-endian 32-bit unsigned
integer, reduced modulo 100, and lies in `[0, 100)`.  Both sides are pure
functions of `(update_id, system_id)`, so the bucket is identical on every
call. -/
theorem claim_C7_cohort_bucket (updateId systemId : List Nat) :
    calculate_rollout_group updateId systemId =
      spec_cohort_bucket updateId systemId ∧
    calculate_rollout_group updateId systemId < 100 := by
  constructor
  · obtain ⟨b0, b1, b2, b3, rest, hsha, h0, h1, h2, h3⟩ :=
      sha256_shape (updateId ++ 58 :: systemId)
    have key : parseHexCodes ((hexdigest (sha256 (updateId ++ 58 :: systemId))).take 8)
        = bytesBE ((sha256 (updateId ++ 58 :: systemId)).take 4) := by
      rw [hsha, parse_take8_hexdigest b0 b1 b2 b3 rest h0 h1 h2 h3]
      simp [List.take_succ_cons]
    simp only [calculate_rollout_group, spec_cohort_bucket]
    rw [key]
  · exact Nat.mod_lt _ (by omega)

/-! ## `scripts/staged-rollout-manager.py` — rollout state machine

`should_receive_update`, `start_rollout`, `report_health`,
`check_rollback_conditions` and `trigger_rollback` act on the JSON state file
`rollout-state.json` and the configuration `rollout-config.json`.  The state
file contents are the `RolloutState` record (`none` when the file does not
exist); the wall clock (`datetime.utcnow()`, as hours / seconds) and the
system id (`/etc/machine-id`) are explicit parameters.  A health report is
represented by its `overall_status` string, the only field the manager ever
reads back. -/

/-- One entry of `config["stages"]`. -/
structure Stage where
  name : String
  percentage : Nat
  duration_hours : ℚ
deriving DecidableEq

/-- The flattened rollout configuration (`stages`,
`health_checks.failure_threshold`, `rollback.enabled`, `rollback.automatic`). -/
structure RolloutConfig where
  stages : List Stage
  failure_threshold : ℚ
  rollback_enabled : Bool
  rollback_automatic : Bool

/-- Embeds `default_stages` (lines 29-34 of the source). -/
def default_stages : List Stage :=
  [⟨"canary", 1, 24⟩, ⟨"early", 10, 48⟩, ⟨"gradual", 50, 72⟩, ⟨"full", 100, 0⟩]

/-- The default configuration written by `load_config`. -/
def default_rollout_config : RolloutConfig :=
  ⟨default_stages, 5, true, true⟩

/-- The `rollout-state.json` record created by `start_rollout` and mutated by
`report_health` / `trigger_rollback`. -/
structure RolloutState where
  update_id : List Nat
  update_info : String
  start_time : ℚ
  status : String
  health_reports : List String
  rollback_triggered : Bool
  rollback_time : Option ℚ
deriving DecidableEq

/-- The `for stage in self.config["stages"]` loop of `get_current_stage`,
carrying the accumulated `cumulative_hours` (the Python also assigns
`cumulative_percentage = stage["percentage"]` each iteration, so the
percentage test is simply against the current stage). -/
def currentStageLoop (rolloutPercentage : Nat) (elapsedHours : ℚ) :
    List Stage → ℚ → Option Stage
  | [], _ => none
  | stage :: rest, cumulativeHours =>
      let cumulativeHours := cumulativeHours + stage.duration_hours
      if (elapsedHours ≤ cumulativeHours ∨ stage.duration_hours = 0) ∧
          rolloutPercentage < stage.percentage
      then some stage
      else currentStageLoop rolloutPercentage elapsedHours rest cumulativeHours

/-- Embeds `get_current_stage(rollout_percentage, rollout_start_time)`; falls back to
`stages[-1]` after the loop.  `none` models the `IndexError` on an empty stage
list. -/
def get_current_stage (cfg : RolloutConfig) (rolloutPercentage : Nat)
    (elapsedHours : ℚ) : Option Stage :=
  match currentStageLoop rolloutPercentage elapsedHours cfg.stages 0 with
  | some stage => some stage
  | none => cfg.stages.getLast?

/-- The eligibility info dictionary returned by `should_receive_update`. -/
structure EligibilityInfo where
  system_id_abbrev : List Nat
  rollout_percentage : Nat
  current_stage : String
  stage_percentage : Nat
  eligible : Bool
deriving DecidableEq

/-- Embeds `should_receive_update(update_id)`.  `stateFile` is the parsed
`rollout-state.json` (or `none`), `systemId` the machine id, `now` the current
time in seconds.  Returns `(eligible, info)` exactly as the Python does;
`(false, none)` is the `"No active rollout"` early return. -/
def should_receive_update (cfg : RolloutConfig) (stateFile : Option RolloutState)
    (updateId systemId : List Nat) (now : ℚ) : Bool × Option EligibilityInfo :=
  let rolloutPercentage := calculate_rollout_group updateId systemId
  match stateFile with
  | none => (false, none)
  | some st =>
      if st.update_id ≠ updateId then (false, none)
      else
        let elapsedHours := (now - st.start_time) / 3600
        match get_current_stage cfg rolloutPercentage elapsedHours with
        | none => (false, none)
        | some stage =>
            let eligible := rolloutPercentage < stage.percentage
            (eligible,
             some ⟨systemId.take 16 ++ [46, 46, 46], rolloutPercentage,
               stage.name, stage.percentage, eligible⟩)

/-- Embeds `start_rollout(update_id, update_info)`: the state written to
`rollout-state.json`.  The method never reads the existing state file; the
`_previous` argument models its prior contents and is (faithfully) ignored. -/
def start_rollout (_previous : Option RolloutState) (updateId : List Nat)
    (updateInfo : String) (now : ℚ) : RolloutState :=
  { update_id := updateId
    update_info := updateInfo
    start_time := now
    status := "active"
    health_reports := []
    rollback_triggered := false
    rollback_time := none }

/-- Embeds `trigger_rollback(rollout_state)`. -/
def trigger_rollback (st : RolloutState) (now : ℚ) : RolloutState :=
  { st with rollback_triggered := true, rollback_time := some now,
            status := "rolled_back" }

/-- Embeds `rollout_state["health_reports"][-10:]`, the window inspected by
`check_rollback_conditions`. -/
def recent_reports (reports : List String) : List String :=
  reports.drop (reports.length - 10)

/-- Embeds `(critical_count / len(recent_reports)) * 100`, exactly. -/
def failure_rate (reports : List String) : ℚ :=
  let recent := recent_reports reports
  let criticalCount := recent.countP (fun r => r == "critical")
  ((criticalCount : ℚ) / (recent.length : ℚ)) * 100

/-- Embeds `check_rollback_conditions(rollout_state)`. -/
def check_rollback_conditions (cfg : RolloutConfig) (st : RolloutState)
    (now : ℚ) : RolloutState :=
  let recent := recent_reports st.health_reports
  if recent.length < 5 then st
  else if failure_rate st.health_reports > cfg.failure_threshold
  then trigger_rollback st now
  else st

/-- Embeds `report_health(update_id)`: append the fresh health result (represented by
its `overall_status`), truncate to the last 100 reports, then run the
automatic-rollback check when configured.  The `Exception` for a missing or
mismatched rollout is `Except.error`. -/
def report_health (cfg : RolloutConfig) (stateFile : Option RolloutState)
    (updateId : List Nat) (newStatus : String) (now : ℚ) :
    Except String RolloutState :=
  match stateFile with
  | none => .error "No active rollout"
  | some st =>
      if st.update_id ≠ updateId then .error "No active rollout"
      else
        let reports := st.health_reports ++ [newStatus]
        let st := { st with health_reports := reports.drop (reports.length - 100) }
        if cfg.rollback_enabled && cfg.rollback_automatic
        then .ok (check_rollback_conditions cfg st now)
        else .ok st

/-- With the default stage list, the stage loop always selects a stage whose
percentage exceeds the bucket: the terminal `full` stage has
`duration_hours = 0` and percentage `100`, so it matches every bucket below
100 at every elapsed time. -/
theorem default_stages_always_match (rp : Nat) (hrp : rp < 100) (eh : ℚ) :
    ∃ stage, currentStageLoop rp eh default_stages 0 = some stage ∧
      rp < stage.percentage := by
  simp only [default_stages, currentStageLoop]
  split_ifs with h1 h2 h3 h4
  · exact ⟨_, rfl, h1.2⟩
  · exact ⟨_, rfl, h2.2⟩
  · exact ⟨_, rfl, h3.2⟩
  · exact ⟨_, rfl, h4.2⟩
  · exact absurd ⟨Or.inr trivial, hrp⟩ h4

/-- Claim C3 (amended): `should_receive_update` never consults
`rollback_triggered` (or `status`); for a state whose `update_id` matches it
returns the stage-schedule eligibility, and under the default stage
configuration that eligibility is `true` for every bucket, every system and
every time — including after a rollback has been triggered. -/
theorem claim_C3_amended_should_receive_ignores_rollback
    (cfg : RolloutConfig) (st : RolloutState) (updateId systemId : List Nat)
    (now : ℚ) (hstages : cfg.stages = default_stages)
    (hid : st.update_id = updateId) (_hrb : st.rollback_triggered = true) :
    (should_receive_update cfg (some st) updateId systemId now).1 = true := by
  subst hid
  obtain ⟨stage, hloop, hlt⟩ := default_stages_always_match
    (calculate_rollout_group st.update_id systemId)
    (Nat.mod_lt _ (by omega)) ((now - st.start_time) / 3600)
  simp only [should_receive_update, get_current_stage, hstages, hloop,
    ne_eq, not_true_eq_false, if_false, ite_false]
  simp [hlt]

set_option maxRecDepth 20000 in
/-- Claim C3 (counterexample to the claim as stated): a concrete state for
update `"U1"` with `rollback_triggered = true` and `status = "rolled_back"`,
under the spec scenario configuration (default stages,
`failure_threshold = 40`): `should_receive_update("U1")` returns `true`, not
`(false, "rolled_back")`. -/
theorem claim_C3_counterexample :
    (should_receive_update ⟨default_stages, 40, true, true⟩
        (some { update_id := [85, 49], update_info := "", start_time := 0,
                status := "rolled_back", health_reports := [],
                rollback_triggered := true, rollback_time := some 0 })
        [85, 49] [109] 0).1 = true := by with_unfolding_all rfl

/-- Witness for the amended C3 theorem at a concrete input. -/
theorem claim_C3_amended_witness :
    (should_receive_update ⟨default_stages, 5, true, true⟩
        (some { update_id := [85, 49], update_info := "", start_time := 0,
                status := "rolled_back", health_reports := [],
                rollback_triggered := true, rollback_time := some 3600 })
        [85, 49] [110] 7200).1 = true :=
  claim_C3_amended_should_receive_ignores_rollback _ _ _ _ _ rfl rfl rfl

/-- Claim C9 (counterexample to the claim as stated): with an `active` rollout
stored for `"U1"`, `start_rollout("U2", ...)` is not rejected and does not
leave the state unchanged: it returns (and saves) a fresh active state for
`"U2"`. -/
theorem claim_C9_counterexample :
    (start_rollout
        (some { update_id := [85, 49], update_info := "info1", start_time := 0,
                status := "active", health_reports := [],
                rollback_triggered := false, rollback_time := none })
        [85, 50] "info2" 5).update_id = [85, 50] ∧
    (start_rollout
        (some { update_id := [85, 49], update_info := "info1", start_time := 0,
                status := "active", health_reports := [],
                rollback_triggered := false, rollback_time := none })
        [85, 50] "info2" 5).status = "active" := by decide

/-- Claim C9 (amended): `start_rollout` performs no conflict check at all — it
unconditionally overwrites `rollout-state.json` with a fresh active state for
the requested update, whatever rollout (active or not, same update or not) was
stored before. -/
theorem claim_C9_amended_start_rollout_overwrites
    (previous : Option RolloutState) (updateId : List Nat)
    (updateInfo : String) (now : ℚ) :
    start_rollout previous updateId updateInfo now =
      { update_id := updateId, update_info := updateInfo, start_time := now,
        status := "active", health_reports := [], rollback_triggered := false,
        rollback_time := none } := rfl

/-- Claim C5: with automatic rollback enabled, a health report against a
matching active rollout triggers rollback (sets `rollback_triggered` and
status `rolled_back`) exactly when the critical fraction of the inspected
window of the last (at least 5, at most 10) reports, times 100, strictly
exceeds the configured failure threshold.  `4 ≤` the prior report count makes
the post-append window at least 5 reports, the code's minimum-data gate. -/
theorem claim_C5_rollback_trigger_iff (cfg : RolloutConfig) (st : RolloutState)
    (updateId : List Nat) (newStatus : String) (now : ℚ)
    (hen : cfg.rollback_enabled = true) (hauto : cfg.rollback_automatic = true)
    (hid : st.update_id = updateId) (hactive : st.status = "active")
    (hlen : 4 ≤ st.health_reports.length) :
    ∃ st2, report_health cfg (some st) updateId newStatus now = .ok st2 ∧
      ((st2.rollback_triggered = true ∧ st2.status = "rolled_back") ↔
        failure_rate st2.health_reports > cfg.failure_threshold) := by
  subst hid
  simp only [report_health, ne_eq, not_true_eq_false, if_false, ite_false,
    hen, hauto, Bool.and_self, if_true, ite_true]
  set reports := st.health_reports ++ [newStatus] with hreports
  set st1 : RolloutState :=
    { st with health_reports := reports.drop (reports.length - 100) } with hst1
  have hguard : ¬ (recent_reports st1.health_reports).length < 5 := by
    simp only [hst1, recent_reports, List.length_drop, hreports,
      List.length_append, List.length_singleton]
    omega
  refine ⟨_, rfl, ?_⟩
  simp only [check_rollback_conditions, hguard, if_false, ite_false]
  by_cases hrate : failure_rate st1.health_reports > cfg.failure_threshold
  · simp only [hrate, if_true, ite_true, trigger_rollback]
    simp [hrate]
  · simp only [hrate, if_false, ite_false]
    have hst : st1.status = "active" := hactive
    simp only [hrate, iff_false, not_and]
    intro _ hcontra
    rw [hst] at hcontra
    exact absurd hcontra (by decide)

/-- Witness for the C5 theorem at a concrete input: threshold 40, nine prior
reports (four critical), a tenth critical report arriving — the window is 10
reports with 5 critical. -/
theorem claim_C5_rollback_trigger_iff_witness :
    ∃ st2, report_health ⟨default_stages, 40, true, true⟩
        (some { update_id := [85, 49], update_info := "", start_time := 0,
                status := "active",
                health_reports := ["critical", "critical", "critical", "critical",
                  "healthy", "healthy", "healthy", "healthy", "healthy"],
                rollback_triggered := false, rollback_time := none })
        [85, 49] "critical" 100 = .ok st2 ∧
      ((st2.rollback_triggered = true ∧ st2.status = "rolled_back") ↔
        failure_rate st2.health_reports > (40 : ℚ)) :=
  claim_C5_rollback_trigger_iff _ _ _ _ _ rfl rfl rfl rfl (by decide)

set_option maxRecDepth 40000 in
/-- Claim C1: the Merkle inclusion law fails on the code.  Concretely, over
the three leaves with canonical JSON bytes `[97]`, `[98]`, `[99]`, the proofs
produced by `create_inclusion_proof` verify for indices 0 and 1 but *not* for
index 2: `build_merkle_tree` promotes the odd last node by hashing it with a
copy of itself, while `create_inclusion_proof` emits no proof step for that
level (the sibling index falls outside the level), so `verify_inclusion_proof`
recomputes a different root. -/
theorem claim_C1_inclusion_proof_fails_on_three_leaves :
    (let leaves := [calculate_leaf_hash [97], calculate_leaf_hash [98],
                    calculate_leaf_hash [99]]
     let built := build_merkle_tree leaves
     (create_inclusion_proof 2 built.2).map
         (fun proof => verify_inclusion_proof [99] 2 proof (built.1.getD []))
       = some false ∧
     (create_inclusion_proof 0 built.2).map
         (fun proof => verify_inclusion_proof [97] 0 proof (built.1.getD []))
       = some true ∧
     (create_inclusion_proof 1 built.2).map
         (fun proof => verify_inclusion_proof [98] 1 proof (built.1.getD []))
       = some true) := by decide

/-! ## `scripts/tuf-client-updater.py` — signature verification and metadata

`verify_signature` only ever branches on whether `public_key.verify` raised,
so the ed25519 primitive is an oracle parameter
`checkSig : key → signature bytes → message bytes → Bool`; keys are opaque
handles (`Nat`).  The canonical-JSON serialization of the signed payload is a
parameter `canonical` for the same reason: the code treats it as an opaque
byte string to be signed. -/

/-- One element of the `signatures` array (the hex `signature` field is kept
as its decoded bytes). -/
structure SigEntry where
  keyid : List Nat
  signature : List Nat
deriving DecidableEq

/-- A signed metadata envelope: `{"signed": ..., "signatures": [...]}`. -/
structure Envelope (α : Type) where
  signed : α
  signatures : List SigEntry
deriving DecidableEq

/-- Association-list lookup (Python `dict` access / `in` test). -/
def alookup {α β : Type} [DecidableEq α] : List (α × β) → α → Option β
  | [], _ => none
  | (k, v) :: rest, target => if k = target then some v else alookup rest target

/-- Embeds `verify_signature(signed_metadata, role_keys)`: count the signatures whose
`keyid` is among `role_keys` and which verify over the canonical bytes
(signatures by unknown key ids, and failing signatures, are skipped without
being fatal), then accept iff that count is positive. -/
def verify_signature {α : Type} (canonical : α → List Nat)
    (checkSig : Nat → List Nat → List Nat → Bool)
    (env : Envelope α) (roleKeys : List (List Nat × Nat)) : Bool :=
  let canonicalBytes := canonical env.signed
  let verifiedSignatures := env.signatures.foldl
    (fun count s =>
      match alookup roleKeys s.keyid with
      | some key => if checkSig key s.signature canonicalBytes then count + 1 else count
      | none => count) 0
  verifiedSignatures > 0

/-- Whether one signature entry is counted by `verify_signature`. -/
def sigAccepted (canonicalBytes : List Nat)
    (checkSig : Nat → List Nat → List Nat → Bool)
    (roleKeys : List (List Nat × Nat)) (s : SigEntry) : Bool :=
  match alookup roleKeys s.keyid with
  | some key => checkSig key s.signature canonicalBytes
  | none => false

/-- Modelled from the spec: *role-valid* — at least `threshold` **distinct**
key ids from the role's key set produce valid signatures over the canonical
bytes. -/
def spec_role_valid {α : Type} (canonical : α → List Nat)
    (checkSig : Nat → List Nat → List Nat → Bool)
    (env : Envelope α) (roleKeys : List (List Nat × Nat))
    (threshold : Nat) : Bool :=
  let canonicalBytes := canonical env.signed
  let validKeyIds :=
    (env.signatures.filter (sigAccepted canonicalBytes checkSig roleKeys)).map
      SigEntry.keyid
  threshold ≤ validKeyIds.dedup.length

/-- One step of the signature-counting fold, through `sigAccepted`. -/
theorem sigCountStep (checkSig : Nat → List Nat → List Nat → Bool)
    (roleKeys : List (List Nat × Nat)) (canonicalBytes : List Nat)
    (count : Nat) (s : SigEntry) :
    (match alookup roleKeys s.keyid with
      | some key => if checkSig key s.signature canonicalBytes then count + 1 else count
      | none => count)
    = count + (if sigAccepted canonicalBytes checkSig roleKeys s then 1 else 0) := by
  unfold sigAccepted
  cases alookup roleKeys s.keyid with
  | none => simp
  | some key => by_cases hc : checkSig key s.signature canonicalBytes <;> simp [hc]

/-- The signature-counting fold counts exactly the accepted entries. -/
theorem verify_signature_count (checkSig : Nat → List Nat → List Nat → Bool)
    (roleKeys : List (List Nat × Nat)) (canonicalBytes : List Nat)
    (l : List SigEntry) (n : Nat) :
    l.foldl
      (fun count s =>
        match alookup roleKeys s.keyid with
        | some key => if checkSig key s.signature canonicalBytes then count + 1 else count
        | none => count) n
    = n + l.countP (sigAccepted canonicalBytes checkSig roleKeys) := by
  induction l generalizing n with
  | nil => simp
  | cons s rest ih =>
      simp only [List.foldl_cons, List.countP_cons]
      rw [ih, sigCountStep checkSig roleKeys canonicalBytes n s]
      by_cases hp : sigAccepted canonicalBytes checkSig roleKeys s
      · simp [hp]
        omega
      · simp [hp]

/-- The predicate `sigAccepted`, spelt out. -/
theorem sigAccepted_iff (checkSig : Nat → List Nat → List Nat → Bool)
    (roleKeys : List (List Nat × Nat)) (canonicalBytes : List Nat) (s : SigEntry) :
    sigAccepted canonicalBytes checkSig roleKeys s = true ↔
      ∃ key, alookup roleKeys s.keyid = some key ∧
        checkSig key s.signature canonicalBytes = true := by
  unfold sigAccepted
  cases alookup roleKeys s.keyid with
  | none => simp
  | some key => simp

/-- Claim C2 (amended): `verify_signature` accepts iff **some** signature in
the envelope has its key id in the role's key set and verifies over the
canonical bytes of the signed payload.  No threshold is consulted: one valid
signature always suffices, however large the role's threshold, and distinct-
ness of key ids plays no part in acceptance.  (Unknown key ids and invalid
signatures are skipped without being fatal, as the claim says.) -/
theorem claim_C2_amended_one_valid_signature_accepts {α : Type}
    (canonical : α → List Nat) (checkSig : Nat → List Nat → List Nat → Bool)
    (env : Envelope α) (roleKeys : List (List Nat × Nat)) :
    verify_signature canonical checkSig env roleKeys = true ↔
      ∃ s ∈ env.signatures, ∃ key, alookup roleKeys s.keyid = some key ∧
        checkSig key s.signature (canonical env.signed) = true := by
  simp only [verify_signature, verify_signature_count, Nat.zero_add,
    gt_iff_lt, decide_eq_true_eq, List.countP_pos_iff, sigAccepted_iff]

/-- Claim C2 (counterexample to the claim as stated): a role with two keys and
threshold 2, and an envelope carrying a single valid signature by the first
key: only one distinct key id verifies (`spec_role_valid` at threshold 2 is
`false`), yet `verify_signature` accepts. -/
theorem claim_C2_counterexample :
    verify_signature id (fun key sg _ => sg == [key])
        ⟨[], [⟨[107, 49], [1]⟩]⟩ [([107, 49], 1), ([107, 50], 2)] = true ∧
    spec_role_valid id (fun key sg _ => sg == [key])
        ⟨[], [⟨[107, 49], [1]⟩]⟩ [([107, 49], 1), ([107, 50], 2)] 2 = false := by
  decide

/-! ### `update_metadata` -/

/-- The `signed` part of a timestamp / snapshot / targets envelope.  Only the
`version` field is ever named by the spec; the remaining fields are carried as
opaque bytes.  `tsCanonical` stands for the canonical JSON serialization. -/
structure MetaPayload where
  version : Nat
  body : List Nat
deriving DecidableEq

/-- Canonical JSON bytes of a `MetaPayload` (a fixed injective serialization;
the code only ever passes it whole to the signature check). -/
def tsCanonical (p : MetaPayload) : List Nat := p.version :: p.body

/-- One role entry of `root.signed.roles` (`keyids` plus the `threshold`
field, which `update_metadata` never reads). -/
structure RoleInfo where
  keyids : List (List Nat)
  threshold : Nat
deriving DecidableEq

/-- The three top-level roles read by `update_metadata`. -/
structure RootRoles where
  timestamp : RoleInfo
  snapshot : RoleInfo
  targets : RoleInfo
deriving DecidableEq

/-- The metadata cache directory (`/var/cache/tuf/metadata`): the three cached
envelopes, `none` when not yet cached. -/
structure MetadataCache where
  timestamp : Option (Envelope MetaPayload)
  snapshot : Option (Envelope MetaPayload)
  targets : Option (Envelope MetaPayload)
deriving DecidableEq

/-- The three envelopes returned by `download_metadata` during one refresh. -/
structure FetchedMetadata where
  timestamp : Envelope MetaPayload
  snapshot : Envelope MetaPayload
  targets : Envelope MetaPayload
deriving DecidableEq

/-- Embeds `{kid: self.root_keys[kid] for kid in role["keyids"]}`: `none` models the
`KeyError` when a role key id is missing from `root_keys`. -/
def selectRoleKeys (rootKeys : List (List Nat × Nat)) (kids : List (List Nat)) :
    Option (List (List Nat × Nat)) :=
  kids.mapM (fun kid => (alookup rootKeys kid).map (fun key => (kid, key)))

/-- Embeds `update_metadata()`: verify the fetched timestamp, snapshot and targets
envelopes against the root-designated role keys, then cache all three.  The
returned value is the new cache contents (the Python also returns
`targets_metadata`); `Except.error` carries the exception message.  Note: the
function performs no version or expiry comparison against the previous
`cache`. -/
def update_metadata (checkSig : Nat → List Nat → List Nat → Bool)
    (rootRoles : RootRoles) (rootKeys : List (List Nat × Nat))
    (fetched : FetchedMetadata) (_cache : MetadataCache) :
    Except String MetadataCache :=
  match selectRoleKeys rootKeys rootRoles.timestamp.keyids with
  | none => .error "KeyError"
  | some timestampKeys =>
    if ¬ verify_signature tsCanonical checkSig fetched.timestamp timestampKeys then
      .error "Timestamp metadata signature verification failed"
    else
      match selectRoleKeys rootKeys rootRoles.snapshot.keyids with
      | none => .error "KeyError"
      | some snapshotKeys =>
        if ¬ verify_signature tsCanonical checkSig fetched.snapshot snapshotKeys then
          .error "Snapshot metadata signature verification failed"
        else
          match selectRoleKeys rootKeys rootRoles.targets.keyids with
          | none => .error "KeyError"
          | some targetsKeys =>
            if ¬ verify_signature tsCanonical checkSig fetched.targets targetsKeys then
              .error "Targets metadata signature verification failed"
            else
              .ok { timestamp := some fetched.timestamp,
                    snapshot := some fetched.snapshot,
                    targets := some fetched.targets }

/-- Claim C4 (amended): `update_metadata` makes no version comparison at all —
whenever the three fetched envelopes carry acceptable signatures, the refresh
succeeds and the fetched metadata replaces the cache, even when the fetched
timestamp version is strictly below the cached one.  No version-regression
error exists in the code. -/
theorem claim_C4_amended_no_version_check
    (checkSig : Nat → List Nat → List Nat → Bool) (rootRoles : RootRoles)
    (rootKeys : List (List Nat × Nat)) (fetched : FetchedMetadata)
    (cache : MetadataCache) (timestampKeys snapshotKeys targetsKeys : List (List Nat × Nat))
    (cachedTs : Envelope MetaPayload)
    (_hcached : cache.timestamp = some cachedTs)
    (_hregression : fetched.timestamp.signed.version < cachedTs.signed.version)
    (hk1 : selectRoleKeys rootKeys rootRoles.timestamp.keyids = some timestampKeys)
    (hk2 : selectRoleKeys rootKeys rootRoles.snapshot.keyids = some snapshotKeys)
    (hk3 : selectRoleKeys rootKeys rootRoles.targets.keyids = some targetsKeys)
    (hv1 : verify_signature tsCanonical checkSig fetched.timestamp timestampKeys = true)
    (hv2 : verify_signature tsCanonical checkSig fetched.snapshot snapshotKeys = true)
    (hv3 : verify_signature tsCanonical checkSig fetched.targets targetsKeys = true) :
    update_metadata checkSig rootRoles rootKeys fetched cache =
      .ok { timestamp := some fetched.timestamp,
            snapshot := some fetched.snapshot,
            targets := some fetched.targets } := by
  simp [update_metadata, hk1, hk2, hk3, hv1, hv2, hv3]

/-- Claim C4 (counterexample to the claim as stated): cached timestamp version
5, fetched timestamp version 4 with an accepted signature — the refresh
succeeds (no version-regression error) and the version-4 envelope replaces the
cached one. -/
theorem claim_C4_counterexample :
    (update_metadata (fun _ _ _ => true)
        ⟨⟨[[107]], 1⟩, ⟨[[107]], 1⟩, ⟨[[107]], 1⟩⟩ [([107], 1)]
        ⟨⟨⟨4, []⟩, [⟨[107], [0]⟩]⟩, ⟨⟨7, []⟩, [⟨[107], [0]⟩]⟩,
         ⟨⟨7, []⟩, [⟨[107], [0]⟩]⟩⟩
        ⟨some ⟨⟨5, []⟩, [⟨[107], [0]⟩]⟩, none, none⟩ =
      .ok ⟨some ⟨⟨4, []⟩, [⟨[107], [0]⟩]⟩, some ⟨⟨7, []⟩, [⟨[107], [0]⟩]⟩,
           some ⟨⟨7, []⟩, [⟨[107], [0]⟩]⟩⟩) ∧ 4 < 5 := ⟨rfl, by decide⟩

/-- Witness for the amended C4 theorem at a concrete input. -/
theorem claim_C4_amended_witness :
    update_metadata (fun _ _ _ => true)
        ⟨⟨[[107]], 1⟩, ⟨[[107]], 1⟩, ⟨[[107]], 1⟩⟩ [([107], 1)]
        ⟨⟨⟨2, []⟩, [⟨[107], [0]⟩]⟩, ⟨⟨9, []⟩, [⟨[107], [0]⟩]⟩,
         ⟨⟨9, []⟩, [⟨[107], [0]⟩]⟩⟩
        ⟨some ⟨⟨3, []⟩, [⟨[107], [0]⟩]⟩, none, none⟩ =
      .ok ⟨some ⟨⟨2, []⟩, [⟨[107], [0]⟩]⟩, some ⟨⟨9, []⟩, [⟨[107], [0]⟩]⟩,
           some ⟨⟨9, []⟩, [⟨[107], [0]⟩]⟩⟩ :=
  claim_C4_amended_no_version_check _ _ _ _ _ _ _ _ _ rfl (by decide) rfl rfl rfl
    (by decide) (by decide) (by decide)

/-! ### `download_target` / `install_update`

The streamed download is the chunk list produced by `response.iter_content`;
the temporary file and the final install path are the two slots of an explicit
file-system state.  The sha256/sha512 hexdigests of the stream are abstract
function parameters `h256`, `h512` (the code only compares their outputs
against the targets entry, so every theorem below holds for the real hash
functions in particular). -/

/-- The errors raised while downloading / installing a target. -/
inductive TargetError where
  | sizeMismatch (expected got : Nat)
  | sha256Mismatch
  | sha512Mismatch
  | targetNotFound
deriving DecidableEq

/-- One entry of `targets_metadata["signed"]["targets"]`: `length` plus the
two expected hexdigests. -/
structure TargetInfo where
  length : Nat
  sha256 : List Nat
  sha512 : List Nat
deriving DecidableEq

/-- The observable file-system state of one install operation: the temporary
download file and the final install path (contents, or `none` when absent). -/
structure TargetFs where
  tempFile : Option (List Nat)
  installedFile : Option (List Nat)
deriving DecidableEq

/-- The bytes written to the temporary file: the chunks, skipping falsy (empty)
ones exactly as `if chunk:` does. -/
def receivedData (chunks : List (List Nat)) : List Nat :=
  (chunks.filter (fun c => ¬ c.isEmpty)).flatten

/-- Embeds `total_size` as accumulated by the download loop. -/
def receivedSize (chunks : List (List Nat)) : Nat :=
  ((chunks.filter (fun c => ¬ c.isEmpty)).map List.length).sum

/-- Embeds `download_target(target_name, target_info)`: stream to a temporary file
while hashing, then check length, sha256 and sha512 against the targets entry;
on any mismatch delete the temporary file and raise.  Returns the temporary
file contents on success, paired with the resulting file-system state. -/
def download_target (h256 h512 : List Nat → List Nat) (info : TargetInfo)
    (chunks : List (List Nat)) (fs : TargetFs) :
    Except TargetError (List Nat) × TargetFs :=
  let data := receivedData chunks
  let fs := { fs with tempFile := some data }
  if receivedSize chunks ≠ info.length then
    (.error (.sizeMismatch info.length (receivedSize chunks)), { fs with tempFile := none })
  else if h256 data ≠ info.sha256 then
    (.error .sha256Mismatch, { fs with tempFile := none })
  else if h512 data ≠ info.sha512 then
    (.error .sha512Mismatch, { fs with tempFile := none })
  else
    (.ok data, fs)

/-- Embeds `install_update(target_name, install_path)`, from the point where the
verified targets listing is in hand (the preceding `update_metadata()` call is
modelled separately): look the target up, download and verify it, then
`os.rename` the temporary file to the install path. -/
def install_update (h256 h512 : List Nat → List Nat)
    (targets : List (List Nat × TargetInfo)) (targetName : List Nat)
    (chunks : List (List Nat)) (fs : TargetFs) :
    Except TargetError (List Nat) × TargetFs :=
  match alookup targets targetName with
  | none => (.error .targetNotFound, fs)
  | some info =>
      match download_target h256 h512 info chunks fs with
      | (.error e, fs) => (.error e, fs)
      | (.ok data, fs) =>
          (.ok data, { fs with tempFile := none, installedFile := some data })

/-- Claim C8: when the received stream differs from the targets entry in
length, sha256 or sha512, installation fails with the corresponding mismatch
error, the temporary file is deleted and nothing is created at the final
install path; and conversely a file appears at the final path only when all
three checks pass, in which case it is exactly the received bytes. -/
theorem claim_C8_target_integrity (h256 h512 : List Nat → List Nat)
    (targets : List (List Nat × TargetInfo)) (targetName : List Nat)
    (info : TargetInfo) (chunks : List (List Nat)) (fs0 : TargetFs)
    (hfound : alookup targets targetName = some info)
    (hstart : fs0.installedFile = none) :
    (receivedSize chunks ≠ info.length ∨ h256 (receivedData chunks) ≠ info.sha256 ∨
        h512 (receivedData chunks) ≠ info.sha512 →
      (install_update h256 h512 targets targetName chunks fs0).1 =
          .error (if receivedSize chunks ≠ info.length then
                    .sizeMismatch info.length (receivedSize chunks)
                  else if h256 (receivedData chunks) ≠ info.sha256 then .sha256Mismatch
                  else .sha512Mismatch) ∧
      (install_update h256 h512 targets targetName chunks fs0).2.tempFile = none ∧
      (install_update h256 h512 targets targetName chunks fs0).2.installedFile = none) ∧
    ((install_update h256 h512 targets targetName chunks fs0).2.installedFile ≠ none →
      receivedSize chunks = info.length ∧ h256 (receivedData chunks) = info.sha256 ∧
      h512 (receivedData chunks) = info.sha512 ∧
      (install_update h256 h512 targets targetName chunks fs0).2.installedFile =
        some (receivedData chunks) ∧
      (install_update h256 h512 targets targetName chunks fs0).1 =
        .ok (receivedData chunks)) := by
  simp only [install_update, hfound, download_target]
  by_cases hsz : receivedSize chunks ≠ info.length
  · simp [hsz, hstart]
  · by_cases h2 : h256 (receivedData chunks) ≠ info.sha256
    · simp [hsz, h2, hstart]
    · by_cases h5 : h512 (receivedData chunks) ≠ info.sha512
      · simp [hsz, h2, h5, hstart]
      · simp only [hsz, h2, h5, ite_false, if_false]
        constructor
        · intro hmis
          rcases hmis with h | h | h <;> exact h.elim
        · intro _
          refine ⟨by omega, ?_, ?_, ?_, ?_⟩ <;> simp_all

/-- Witness for the C8 theorem at a concrete input: a one-byte stream whose
sha256 hexdigest does not match the targets entry — the install fails with
`sha256Mismatch`, the temporary file is deleted and nothing is installed. -/
theorem claim_C8_target_integrity_witness :
    (install_update (fun _ => [0]) (fun _ => [0]) [([116], ⟨1, [1], [0]⟩)]
        [116] [[7]] ⟨none, none⟩).1 = .error .sha256Mismatch ∧
    (install_update (fun _ => [0]) (fun _ => [0]) [([116], ⟨1, [1], [0]⟩)]
        [116] [[7]] ⟨none, none⟩).2.tempFile = none ∧
    (install_update (fun _ => [0]) (fun _ => [0]) [([116], ⟨1, [1], [0]⟩)]
        [116] [[7]] ⟨none, none⟩).2.installedFile = none := by
  have h := claim_C8_target_integrity (fun _ => [0]) (fun _ => [0])
    [([116], ⟨1, [1], [0]⟩)] [116] ⟨1, [1], [0]⟩ [[7]] ⟨none, none⟩ rfl rfl
  obtain ⟨he, ht, hi⟩ := h.1 (Or.inr (Or.inl (by decide)))
  exact ⟨he.trans (by rfl), ht, hi⟩

/-! ## `hardened-os/logging/log-server-config.py` — tamper-evident ingestion

`handle_log_upload` is a request handler; its observable state is the
integrity database (`integrity.db`, a map from client id to its hash chain)
plus the set of stored batch files.  The client id from the TLS peer
certificate, the uploaded bytes, the decoded `X-Log-Signature` header and the
server clock (`time.time()`) are explicit inputs; RSA-PSS verification is the
oracle `rsaVerify`, and the client key directory is an association list. -/

/-- One entry of a client's integrity chain. -/
structure ChainEntry where
  timestamp : ℚ
  hash : List Nat
  filename : String
  size : Nat
deriving DecidableEq

/-- The log server's persistent state. -/
structure ServerState where
  integrityDb : List (String × List ChainEntry)
  storedLogs : List (String × List Nat)
deriving DecidableEq

/-- Embeds `_verify_log_signature(client_id, log_data, signature)`: `False` when no
key is on file for the client, otherwise the RSA-PSS check. -/
def verify_log_signature (rsaVerify : Nat → List Nat → List Nat → Bool)
    (keys : List (String × Nat)) (clientId : String)
    (logData sig : List Nat) : Bool :=
  match alookup keys clientId with
  | none => false
  | some key => rsaVerify key logData sig

/-- Embeds `_detect_tampering(client_id, log_hash, timestamp)`: `False` on an empty
chain; otherwise flag exactly when the timestamp is below the last entry's.
(The source also recomputes a chain hash into `expected_chain_hash` and
discards it — `return False  # Simplified`; dead code, not modelled.)  The
`_logHash` argument is accepted and unused, as in the source's live paths. -/
def detect_tampering (db : List (String × List ChainEntry)) (clientId : String)
    (_logHash : List Nat) (timestamp : ℚ) : Bool :=
  let clientChain := (alookup db clientId).getD []
  match clientChain.getLast? with
  | none => false
  | some lastEntry => if timestamp < lastEntry.timestamp then true else false

/-- Embeds `self.integrity_db.setdefault(client_id, []).append(entry)`: append to the
client's chain, creating it when absent. -/
def dbAppend : List (String × List ChainEntry) → String → ChainEntry →
    List (String × List ChainEntry)
  | [], cid, e => [(cid, [e])]
  | (c, chain) :: rest, cid, e =>
      if c = cid then (c, chain ++ [e]) :: rest
      else (c, chain) :: dbAppend rest cid e

/-- Embeds `handle_log_upload(request)`: returns the HTTP status code and the state
after the request.  401 missing client certificate, 400 missing signature
header, 403 failed signature, 409 tampering detected, 200 stored. -/
def handle_log_upload (rsaVerify : Nat → List Nat → List Nat → Bool)
    (keys : List (String × Nat)) (st : ServerState) (clientId : Option String)
    (logData : List Nat) (signatureHeader : Option (List Nat)) (now : ℚ)
    (filename : String) : Nat × ServerState :=
  match clientId with
  | none => (401, st)
  | some cid =>
      match signatureHeader with
      | none => (400, st)
      | some sig =>
          if ¬ verify_log_signature rsaVerify keys cid logData sig then (403, st)
          else
            let logHash := hexdigest (sha256 logData)
            if detect_tampering st.integrityDb cid logHash now then (409, st)
            else
              (200,
               { integrityDb := dbAppend st.integrityDb cid
                   ⟨now, logHash, filename, logData.length⟩,
                 storedLogs := (cid, logData) :: st.storedLogs })

/-- The helper `dbAppend` puts the new entry at the end of the client's chain. -/
theorem alookup_dbAppend (db : List (String × List ChainEntry)) (cid : String)
    (e : ChainEntry) :
    alookup (dbAppend db cid e) cid = some ((alookup db cid).getD [] ++ [e]) := by
  induction db with
  | nil => simp [dbAppend, alookup]
  | cons p rest ih =>
      obtain ⟨c, chain⟩ := p
      by_cases hc : c = cid
      · subst hc
        simp [dbAppend, alookup]
      · simp [dbAppend, alookup, hc, ih]

/-- Claim C6: a correctly signed upload whose (server-assigned) timestamp is
strictly below the last chain entry's timestamp is rejected with 409 and the
state is returned unchanged: no chain entry is appended and no batch file is
stored. -/
theorem claim_C6_tamper_rejected_chain_frozen
    (rsaVerify : Nat → List Nat → List Nat → Bool) (keys : List (String × Nat))
    (st : ServerState) (cid : String) (logData sig : List Nat) (now : ℚ)
    (filename : String) (key : Nat) (lastEntry : ChainEntry)
    (hkey : alookup keys cid = some key)
    (hsig : rsaVerify key logData sig = true)
    (hlast : ((alookup st.integrityDb cid).getD []).getLast? = some lastEntry)
    (hts : now < lastEntry.timestamp) :
    handle_log_upload rsaVerify keys st (some cid) logData (some sig) now filename
      = (409, st) := by
  simp only [handle_log_upload, verify_log_signature, hkey, hsig,
    detect_tampering, hlast, Bool.not_true, Bool.false_eq_true, if_false,
    ite_false]
  simp [hts]

/-- Witness for the C6 theorem at a concrete input: last entry at time 200,
upload arriving at time 150. -/
theorem claim_C6_tamper_rejected_chain_frozen_witness :
    handle_log_upload (fun _ _ _ => true) [("c", 1)]
        ⟨[("c", [⟨200, [], "f0", 0⟩])], []⟩ (some "c") [7] (some [1]) 150 "f1" =
      (409, ⟨[("c", [⟨200, [], "f0", 0⟩])], []⟩) :=
  claim_C6_tamper_rejected_chain_frozen _ _ _ _ _ _ _ _ 1 ⟨200, [], "f0", 0⟩
    rfl rfl rfl (by decide)

/-- Claim C10: for a client with an empty integrity chain the tamper check
returns `false` whatever the hash and timestamp; a correctly signed first
batch is accepted with 200 and becomes the client's single chain entry; and no
upload by that client can be rejected as tampering (409) while the chain is
empty — tamper rejection is possible only from the second batch onward. -/
theorem claim_C10_first_batch_always_accepted
    (rsaVerify : Nat → List Nat → List Nat → Bool) (keys : List (String × Nat))
    (st : ServerState) (cid : String) (logData sig : List Nat) (now : ℚ)
    (filename : String) (key : Nat)
    (hempty : (alookup st.integrityDb cid).getD [] = [])
    (hkey : alookup keys cid = some key)
    (hsig : rsaVerify key logData sig = true) :
    (∀ logHash ts, detect_tampering st.integrityDb cid logHash ts = false) ∧
    handle_log_upload rsaVerify keys st (some cid) logData (some sig) now filename
      = (200,
         { integrityDb := dbAppend st.integrityDb cid
             ⟨now, hexdigest (sha256 logData), filename, logData.length⟩,
           storedLogs := (cid, logData) :: st.storedLogs }) ∧
    alookup ((handle_log_upload rsaVerify keys st (some cid) logData (some sig)
        now filename).2).integrityDb cid
      = some [⟨now, hexdigest (sha256 logData), filename, logData.length⟩] ∧
    (∀ logData2 sigHeader2 now2 filename2,
      (handle_log_upload rsaVerify keys st (some cid) logData2 sigHeader2
          now2 filename2).1 ≠ 409) := by
  have hdetect : ∀ logHash ts, detect_tampering st.integrityDb cid logHash ts = false := by
    intro logHash ts
    simp [detect_tampering, hempty]
  have haccept :
      handle_log_upload rsaVerify keys st (some cid) logData (some sig) now filename
        = (200,
           { integrityDb := dbAppend st.integrityDb cid
               ⟨now, hexdigest (sha256 logData), filename, logData.length⟩,
             storedLogs := (cid, logData) :: st.storedLogs }) := by
    simp [handle_log_upload, verify_log_signature, hkey, hsig, hdetect]
  refine ⟨hdetect, haccept, ?_, ?_⟩
  · rw [haccept]
    simp only [alookup_dbAppend, hempty, List.nil_append]
  · intro logData2 sigHeader2 now2 filename2
    cases sigHeader2 with
    | none => simp [handle_log_upload]
    | some sig2 =>
        by_cases hv : verify_log_signature rsaVerify keys cid logData2 sig2 = true
        · simp [handle_log_upload, hv, hdetect]
        · simp [handle_log_upload, hv]

/-- Witness for the C10 theorem at a concrete input: a fresh client uploading
its first batch. -/
theorem claim_C10_first_batch_always_accepted_witness :
    handle_log_upload (fun _ _ _ => true) [("c", 1)] ⟨[], []⟩ (some "c") [97]
        (some [1]) 100 "f0" =
      (200, ⟨[("c", [⟨100, hexdigest (sha256 [97]), "f0", 1⟩])], [("c", [97])]⟩) := by
  have h := claim_C10_first_batch_always_accepted (fun _ _ _ => true) [("c", 1)]
    ⟨[], []⟩ "c" [97] [1] 100 "f0" 1 rfl rfl rfl
  exact h.2.1.trans (by rfl)

end HardenedOS
